import Mathlib

/-!
Verification development for the DavidsApp repository.

Two programs are embedded:
* `Quest` — the interactive CLI questionnaire (`FitnessQuestionnaire`) from
  `src/unnamed/part_000`: gap-driven daily-mission generation and the
  time-budget prioritizer.
* `Vitality` — the gamified app (`HealthVitalityApp`) from
  `src/fitness_goal_setter.ts`: survey processing, daily-mission factories,
  mission completion, level-up and achievement rules.

JavaScript numbers are embedded as `ℚ` (the arithmetic in the source is
decimal-literal multiplication, `min`, addition and comparison); XP/coin
amounts, which are always integers in the source, as `Int`; levels as `Nat`.
`Math.random()`-driven pool picks are embedded as an explicit stream of draw
indices (`rand : Nat → Nat`), reduced modulo the pool size, and `Date.now()`
timestamps as a `Nat` parameter.
-/

namespace Quest

/-- `difficulty` union type of `DailyMission` in part_000. -/
inductive Difficulty
  | easy
  | medium
  | hard
deriving DecidableEq, Repr

/-- `category` union type of `DailyMission` in part_000. -/
inductive Category
  | strength
  | cardio
  | flexibility
  | recovery
  | nutrition
deriving DecidableEq, Repr, BEq

/-- `activityLevel` union type of `FitnessBaseline`. -/
inductive ActivityLevel
  | sedentary
  | lightly_active
  | moderately_active
  | very_active
  | extremely_active
deriving DecidableEq, Repr

/-- `fitnessExperience` union type of `FitnessBaseline`. -/
inductive Experience
  | beginner
  | intermediate
  | advanced
deriving DecidableEq, Repr

/-- `budget` union type of `FitnessBaseline`. -/
inductive BudgetLevel
  | none
  | low
  | moderate
  | high
deriving DecidableEq, Repr

/-- `primaryGoal` union type of `FitnessGoals`. -/
inductive PrimaryGoal
  | weight_loss
  | muscle_gain
  | strength
  | endurance
  | flexibility
  | general_fitness
deriving DecidableEq, Repr

/-- `priority` union type of `FitnessGoals`. -/
inductive Priority
  | high
  | medium
  | low
deriving DecidableEq, Repr

/-- The `DailyMission` interface of part_000. -/
structure DailyMission where
  id : String
  title : String
  description : String
  category : Category
  difficulty : Difficulty
  estimatedTime : ℚ
  equipment : List String
  instructions : List String
deriving DecidableEq, Repr

/-- The `FitnessBaseline` interface of part_000. -/
structure FitnessBaseline where
  currentWeight : ℚ
  height : ℚ
  age : ℚ
  activityLevel : ActivityLevel
  workoutFrequency : ℚ
  workoutDuration : ℚ
  fitnessExperience : Experience
  preferredActivities : List String
  currentStrengthLevel : ℚ
  currentEnduranceLevel : ℚ
  currentFlexibilityLevel : ℚ
  timeAvailable : ℚ
  budget : BudgetLevel
  equipment : List String
  limitations : List String
  motivation : ℚ
deriving DecidableEq, Repr

/-- The `FitnessGoals` interface of part_000. -/
structure FitnessGoals where
  targetWeight : Option ℚ
  primaryGoal : PrimaryGoal
  targetStrengthLevel : ℚ
  targetEnduranceLevel : ℚ
  targetFlexibilityLevel : ℚ
  timeframe : ℚ
  priority : Priority
  specificTargets : List String
deriving DecidableEq, Repr

/-- `getStrengthInstructions(experience, equipment)` from part_000. -/
def getStrengthInstructions (experience : Experience) (equipment : List String) :
    List String :=
  if equipment.contains "gym_access" then
    if experience = .beginner then
      ["Focus on compound movements:",
       "- Goblet squats: 3 sets x 8-12 reps",
       "- Assisted pull-ups or lat pulldowns: 3 sets x 5-10 reps",
       "- Dumbbell bench press: 3 sets x 8-12 reps",
       "- Plank: 3 sets x 20-30 seconds",
       "Rest 60-90 seconds between sets"]
    else
      ["Compound strength training:",
       "- Squats: 4 sets x 6-8 reps",
       "- Deadlifts: 4 sets x 5-6 reps",
       "- Bench press: 4 sets x 6-8 reps",
       "- Rows: 4 sets x 8-10 reps",
       "Rest 2-3 minutes between sets"]
  else
    ["Home strength circuit:",
     "- Push-up variations: 3 sets x 8-15 reps",
     "- Dumbbell squats: 3 sets x 12-15 reps",
     "- Dumbbell rows: 3 sets x 10-12 reps",
     "- Overhead press: 3 sets x 8-12 reps",
     "Rest 60 seconds between sets"]

/-- `getCardioInstructions(enduranceLevel, duration)` from part_000; the
`${duration}` template interpolation is rendered with `toString`. -/
def getCardioInstructions (enduranceLevel : ℚ) (duration : ℚ) : List String :=
  if enduranceLevel < 4 then
    [toString duration ++ "-minute beginner cardio:",
     "- 5 minutes easy walking",
     "- Alternate 1 minute brisk walk, 1 minute easy walk",
     "- End with 5 minutes easy walking",
     "- Focus on breathing and form over speed"]
  else
    [toString duration ++ "-minute cardio session:",
     "- 5 minute warm-up",
     "- High-intensity intervals: 30 seconds work, 90 seconds rest",
     "- Repeat for main portion of workout",
     "- 5 minute cool-down",
     "- Monitor heart rate if possible"]

/-- The `strength_001` mission pushed by `generateMissions` when the strength
gap is positive and gym or home equipment is present. -/
def strengthGymMission (baseline : FitnessBaseline) : DailyMission :=
  { id := "strength_001",
    title := "Strength Training Session",
    description := "Complete a focused strength training workout targeting major muscle groups",
    category := .strength,
    difficulty := if baseline.fitnessExperience = .beginner then .easy else .medium,
    estimatedTime := min (baseline.timeAvailable * 0.7) 45,
    equipment := if baseline.equipment.contains "gym_access" then ["gym_access"]
                 else ["home_equipment"],
    instructions := getStrengthInstructions baseline.fitnessExperience baseline.equipment }

/-- The `strength_002` bodyweight-circuit mission. -/
def strengthBodyweightMission : DailyMission :=
  { id := "strength_002",
    title := "Bodyweight Strength Circuit",
    description := "Build strength using bodyweight exercises",
    category := .strength,
    difficulty := .easy,
    estimatedTime := 20,
    equipment := ["bodyweight_only"],
    instructions := ["Perform 3 rounds of:",
                     "- 10 Push-ups (modify as needed)",
                     "- 15 Squats",
                     "- 30-second Plank",
                     "- 10 Lunges per leg",
                     "Rest 60 seconds between rounds"] }

/-- The `cardio_001` mission (its time is computed once and shared with the
instruction text). -/
def cardioMission (baseline : FitnessBaseline) : DailyMission :=
  { id := "cardio_001",
    title := "Cardiovascular Training",
    description := "Improve heart health and endurance",
    category := .cardio,
    difficulty := if baseline.currentEnduranceLevel < 5 then .easy else .medium,
    estimatedTime := min (baseline.timeAvailable * 0.6) 30,
    equipment := ["bodyweight_only"],
    instructions := getCardioInstructions baseline.currentEnduranceLevel
      (min (baseline.timeAvailable * 0.6) 30) }

/-- The `flexibility_001` mission. -/
def flexibilityMission : DailyMission :=
  { id := "flexibility_001",
    title := "Flexibility & Mobility",
    description := "Improve flexibility and reduce muscle tension",
    category := .flexibility,
    difficulty := .easy,
    estimatedTime := 15,
    equipment := ["bodyweight_only"],
    instructions := ["Hold each stretch for 30 seconds:",
                     "- Neck rolls and shoulder shrugs",
                     "- Arm circles and chest stretch",
                     "- Hip circles and leg swings",
                     "- Hamstring and calf stretches",
                     "- Spinal twists (seated or standing)"] }

/-- The `recovery_001` mission. -/
def recoveryMission : DailyMission :=
  { id := "recovery_001",
    title := "Active Recovery",
    description := "Promote recovery and prepare for next workout",
    category := .recovery,
    difficulty := .easy,
    estimatedTime := 10,
    equipment := ["bodyweight_only"],
    instructions := ["- 5 minutes gentle walking",
                     "- Deep breathing exercises (4-7-8 pattern)",
                     "- Gentle stretching focusing on worked muscles",
                     "- Hydrate well",
                     "- Note how you feel in a fitness journal"] }

/-- The candidate-mission list built inside `generateMissions` (part_000 lines
180-277) before the final `prioritizeMissions` call: one conditional push per
dimension gap, plus the recovery rule that looks at the queue built so far. -/
def candidateMissions (baseline : FitnessBaseline) (goals : FitnessGoals) :
    List DailyMission :=
  let strengthGap := goals.targetStrengthLevel - baseline.currentStrengthLevel
  let enduranceGap := goals.targetEnduranceLevel - baseline.currentEnduranceLevel
  let flexibilityGap := goals.targetFlexibilityLevel - baseline.currentFlexibilityLevel
  let missions1 : List DailyMission :=
    if strengthGap > 0 then
      if baseline.equipment.contains "gym_access"
          ∨ baseline.equipment.contains "home_equipment" then
        [strengthGymMission baseline]
      else
        [strengthBodyweightMission]
    else []
  let missions2 : List DailyMission :=
    missions1 ++
    (if enduranceGap > 0 ∨ goals.primaryGoal = .weight_loss then
      [cardioMission baseline]
     else [])
  let missions3 : List DailyMission :=
    missions2 ++ (if flexibilityGap > 0 then [flexibilityMission] else [])
  missions3 ++
  (if baseline.fitnessExperience = .beginner ∨ missions3.length > 1 then
    [recoveryMission]
   else [])

/-- Cardio-category test used to state the cardio-emission rule. -/
def isCardio (m : DailyMission) : Bool :=
  m.category == .cardio

/-- `missions.reduce((sum, mission) => sum + mission.estimatedTime, 0)`. -/
def totalTime (missions : List DailyMission) : ℚ :=
  missions.foldl (fun sum mission => sum + mission.estimatedTime) 0

/-- The static `priorityOrder` category table keyed by primary goal.  With the
closed `primaryGoal` union every key is present, so the
`|| priorityOrder[general_fitness]` fallback in the source never fires. -/
def priorityOrder : PrimaryGoal → List Category
  | .weight_loss => [.cardio, .strength, .recovery, .flexibility]
  | .muscle_gain => [.strength, .recovery, .flexibility, .cardio]
  | .strength => [.strength, .recovery, .flexibility, .cardio]
  | .endurance => [.cardio, .flexibility, .recovery, .strength]
  | .flexibility => [.flexibility, .recovery, .strength, .cardio]
  | .general_fitness => [.strength, .cardio, .flexibility, .recovery]

/-- `order.indexOf(category)`: the first index, `-1` when absent. -/
def catIndex (order : List Category) (c : Category) : Int :=
  match order.findIdx? (fun x => x == c) with
  | some i => (i : Int)
  | none => -1

/-- Insert a mission into an already sorted list, before the first element
with a strictly greater key, so equal-key elements keep their original
relative order. -/
def insertSorted (key : DailyMission → Int) (m : DailyMission) :
    List DailyMission → List DailyMission
  | [] => [m]
  | x :: xs => if key x < key m then x :: insertSorted key m xs else m :: x :: xs

/-- Stable insertion sort by an integer key.  `Array.prototype.sort` is
required to be stable, and the comparator `indexOf(a) - indexOf(b)` is a
consistent total preorder, so the source's sort coincides with any stable
sort by `indexOf`. -/
def sortByKey (key : DailyMission → Int) : List DailyMission → List DailyMission
  | [] => []
  | x :: xs => insertSorted key x (sortByKey key xs)

/-- The `missions.sort((a, b) => order.indexOf(a.category) - order.indexOf(b.category))`
step of `prioritizeMissions`. -/
def sortMissions (missions : List DailyMission) (goals : FitnessGoals) :
    List DailyMission :=
  sortByKey (fun m => catIndex (priorityOrder goals.primaryGoal) m.category) missions

/-- One step of the `missions.filter(...)` scan: the closure captures a running
`currentTime`; a mission is kept, and the total advanced, exactly when it still
fits the time budget. -/
def filterStep (budget : ℚ) (st : ℚ × List DailyMission) (m : DailyMission) :
    ℚ × List DailyMission :=
  if st.1 + m.estimatedTime ≤ budget then (st.1 + m.estimatedTime, st.2 ++ [m]) else st

/-- The whole `filter` scan of `prioritizeMissions`: `Array.prototype.filter`
visits every element in order, threading `currentTime` through the closure. -/
def filterFit (budget : ℚ) (missions : List DailyMission) : List DailyMission :=
  (missions.foldl (filterStep budget) (0, [])).2

/-- `prioritizeMissions(missions, baseline, goals)` from part_000: return the
list unchanged when the total fits the budget, otherwise sort by the
goal-keyed category order and run the greedy time filter. -/
def prioritizeMissions (missions : List DailyMission) (baseline : FitnessBaseline)
    (goals : FitnessGoals) : List DailyMission :=
  if totalTime missions > baseline.timeAvailable then
    filterFit baseline.timeAvailable (sortMissions missions goals)
  else
    missions

/-- `generateMissions()` from part_000: the candidate rules followed by the
prioritizer. -/
def generateMissions (baseline : FitnessBaseline) (goals : FitnessGoals) :
    List DailyMission :=
  prioritizeMissions (candidateMissions baseline goals) baseline goals

/-- Recursive rendering of the greedy scan as the spec describes it after
amendment: walk the sorted list with a running total of the kept missions,
keep a mission exactly when it still fits, and keep scanning past a dropped
mission. -/
def greedyScan (budget : ℚ) : ℚ → List DailyMission → List DailyMission
  | _, [] => []
  | cur, m :: rest =>
    if cur + m.estimatedTime ≤ budget then
      m :: greedyScan budget (cur + m.estimatedTime) rest
    else
      greedyScan budget cur rest

end Quest

namespace Vitality

/-- `difficulty` union type of the gamified `DailyMission`. -/
inductive Difficulty
  | easy
  | medium
  | hard
deriving DecidableEq, Repr

/-- `type` union type of the gamified `DailyMission`. -/
inductive MissionType
  | habit
  | challenge
  | milestone
deriving DecidableEq, Repr

/-- A survey response `value`: `number | string | boolean`. -/
inductive SurveyValue
  | num (q : ℚ)
  | str (s : String)
  | bool (b : Bool)
deriving DecidableEq, Repr

/-- The `SurveyResponse` interface (timestamps as abstract ticks). -/
structure SurveyResponse where
  questionId : String
  value : SurveyValue
  timestamp : Nat
deriving DecidableEq, Repr

/-- The `GoalTimeframe` interface. -/
structure GoalTimeframe where
  threeMonths : ℚ
  sixMonths : ℚ
  oneYear : ℚ
  fiveYears : ℚ
  tenYears : ℚ
deriving DecidableEq, Repr

/-- The `UserBaseline` interface. -/
structure UserBaseline where
  energyLevel : ℚ
  physicalFitness : ℚ
  strength : ℚ
  flexibility : ℚ
  weight : ℚ
  height : ℚ
  nutritionQuality : ℚ
  hydration : ℚ
  sleepQuality : ℚ
  stressManagement : ℚ
  currentChallenges : List String
deriving DecidableEq, Repr

/-- The `UserGoals` interface (`customGoals` as an association list). -/
structure UserGoals where
  energyLevel : GoalTimeframe
  physicalFitness : GoalTimeframe
  weight : GoalTimeframe
  customGoals : List (String × GoalTimeframe)
deriving DecidableEq, Repr

/-- The gamified `DailyMission` interface; `category` is a plain string here. -/
structure DailyMission where
  id : String
  title : String
  description : String
  category : String
  difficulty : Difficulty
  xpReward : Int
  coinReward : Int
  estimatedTime : ℚ
  type : MissionType
  isCompleted : Bool
  streak : Option Nat
deriving DecidableEq, Repr

/-- The `UserProgress` interface; `streaks` is the `{ [category]: number }`
object as an association list, `lastActive` an abstract tick. -/
structure UserProgress where
  level : Nat
  xp : Int
  coins : Int
  streaks : List (String × Int)
  completedMissions : List String
  unlockedAchievements : List String
  lastActive : Nat
deriving DecidableEq, Repr

/-- The `User` interface. -/
structure User where
  id : String
  name : String
  baseline : UserBaseline
  goals : UserGoals
  progress : UserProgress
  surveyResponses : List SurveyResponse
  createdAt : Nat
  updatedAt : Nat
deriving DecidableEq, Repr

/-- `requirements[].type` of an `Achievement`. -/
inductive ReqType
  | total_missions
  | streak
  | category_progress
  | goal_reached
deriving DecidableEq, Repr

/-- One entry of an `Achievement`'s `requirements` array. -/
structure Requirement where
  type : ReqType
  value : Nat
  category : Option String
deriving DecidableEq, Repr

/-- The `Achievement` interface. -/
structure Achievement where
  id : String
  title : String
  description : String
  icon : String
  xpReward : Int
  unlockedAt : Option Nat
  requirements : List Requirement
deriving DecidableEq, Repr

/-- JavaScript `Number(value)` on a survey value, `none` standing for `NaN`.
String coercion is embedded on the nonneg-integer-literal fragment that the
survey data uses (`Number("") = 0`, a digits-only string parses, anything
else is `NaN`). -/
def toNumber : SurveyValue → Option ℚ
  | .num q => some q
  | .str s => if s = "" then some 0 else (s.toNat?).map (fun n => (n : ℚ))
  | .bool b => some (if b then 1 else 0)

/-- `Number(map.get(id)) || fallback`: a missing key coerces to `NaN`, and
`NaN` and `0` are both falsy, so either yields the fallback. -/
def numOr (fallback : ℚ) (v : Option SurveyValue) : ℚ :=
  match v with
  | none => fallback
  | some sv =>
    match toNumber sv with
    | none => fallback
    | some q => if q = 0 then fallback else q

/-- `new Map(responses.map(r => [r.questionId, r.value])).get(k)`: the last
entry for a duplicated key wins. -/
def mapGet (responses : List SurveyResponse) (k : String) : Option SurveyValue :=
  (responses.reverse.find? (fun r => r.questionId == k)).map (fun r => r.value)

/-- `processSurveyResponses(userId, responses)`; the unused `userId` argument
is dropped. -/
def processSurveyResponses (responses : List SurveyResponse) : UserBaseline :=
  { energyLevel := numOr 1 (mapGet responses "baseline_energy"),
    physicalFitness := numOr 1 (mapGet responses "baseline_fitness"),
    strength := numOr 1 (mapGet responses "baseline_strength"),
    flexibility := numOr 1 (mapGet responses "baseline_flexibility"),
    weight := numOr 0 (mapGet responses "current_weight"),
    height := numOr 0 (mapGet responses "height"),
    nutritionQuality := numOr 1 (mapGet responses "baseline_nutrition"),
    hydration := numOr 1 (mapGet responses "baseline_hydration"),
    sleepQuality := numOr 1 (mapGet responses "baseline_sleep"),
    stressManagement := numOr 1 (mapGet responses "stress_level"),
    currentChallenges := [] }

/-- A `{title, description, difficulty, estimatedTime}` pool entry spread into
a full mission by the factory functions. -/
structure MissionSeed where
  title : String
  description : String
  difficulty : Difficulty
  estimatedTime : ℚ
deriving DecidableEq, Repr

/-- A variety pool entry, which also carries its category. -/
structure VarietySeed where
  title : String
  description : String
  difficulty : Difficulty
  estimatedTime : ℚ
  category : String
deriving DecidableEq, Repr

/-- The `energyMissions` pool in `createEnergyMission`. -/
def energyMissions : List MissionSeed :=
  [{ title := "🌅 Morning Energizer",
     description := "Do 10 jumping jacks within 30 minutes of waking up",
     difficulty := .easy, estimatedTime := 2 },
   { title := "💧 Hydration Boost",
     description := "Drink a full glass of water before each meal",
     difficulty := .easy, estimatedTime := 1 },
   { title := "🚶‍♂️ Energy Walk",
     description := "Take a 15-minute walk outdoors",
     difficulty := .medium, estimatedTime := 15 }]

/-- `createEnergyMission(user)`; `k` is the raw `Math.floor(Math.random() * n)`
draw, reduced modulo the pool size (the source draw is already in range). -/
def createEnergyMission (u : User) (k : Nat) (now : Nat) : DailyMission :=
  let mission := energyMissions.getD (k % energyMissions.length)
    ⟨"", "", .easy, 0⟩
  { id := "energy_" ++ toString now,
    title := mission.title,
    description := mission.description,
    category := "energy",
    difficulty := mission.difficulty,
    xpReward := if mission.difficulty = .easy then 10
                else if mission.difficulty = .medium then 20 else 30,
    coinReward := if mission.difficulty = .easy then 5
                  else if mission.difficulty = .medium then 10 else 15,
    estimatedTime := mission.estimatedTime,
    type := .habit,
    isCompleted := false,
    streak := none }

/-- The `fitnessMissions` pool in `createFitnessMission`, whose entries branch
on `user.baseline.physicalFitness`. -/
def fitnessMissions (u : User) : List MissionSeed :=
  let currentLevel := u.baseline.physicalFitness
  [{ title := "💪 Strength Builder",
     description := if currentLevel < 4 then "Do 5 push-ups (knee push-ups if needed)"
                    else "Do 15 push-ups",
     difficulty := if currentLevel < 4 then .easy else .medium,
     estimatedTime := 3 },
   { title := "🏃‍♂️ Cardio Burst",
     description := if currentLevel < 4 then "Walk briskly for 10 minutes"
                    else "Run/jog for 15 minutes",
     difficulty := if currentLevel < 4 then .easy else .medium,
     estimatedTime := if currentLevel < 4 then 10 else 15 },
   { title := "🧘‍♀️ Flexibility Flow",
     description := "Do 5 minutes of stretching or yoga",
     difficulty := .easy,
     estimatedTime := 5 }]

/-- `createFitnessMission(user)`. -/
def createFitnessMission (u : User) (k : Nat) (now : Nat) : DailyMission :=
  let mission := (fitnessMissions u).getD (k % (fitnessMissions u).length)
    ⟨"", "", .easy, 0⟩
  { id := "fitness_" ++ toString now,
    title := mission.title,
    description := mission.description,
    category := "fitness",
    difficulty := mission.difficulty,
    xpReward := if mission.difficulty = .easy then 15
                else if mission.difficulty = .medium then 25 else 35,
    coinReward := if mission.difficulty = .easy then 8
                  else if mission.difficulty = .medium then 12 else 18,
    estimatedTime := mission.estimatedTime,
    type := .habit,
    isCompleted := false,
    streak := none }

/-- The `nutritionMissions` pool in `createNutritionMission`. -/
def nutritionMissions : List MissionSeed :=
  [{ title := "🥗 Veggie Power",
     description := "Eat at least 3 servings of vegetables today",
     difficulty := .medium, estimatedTime := 0 },
   { title := "🍎 Fruit First",
     description := "Eat a piece of fruit before lunch",
     difficulty := .easy, estimatedTime := 5 },
   { title := "🚫 Skip the Processed",
     description := "Avoid processed snacks for the entire day",
     difficulty := .hard, estimatedTime := 0 }]

/-- `createNutritionMission(user)`. -/
def createNutritionMission (u : User) (k : Nat) (now : Nat) : DailyMission :=
  let mission := nutritionMissions.getD (k % nutritionMissions.length)
    ⟨"", "", .easy, 0⟩
  { id := "nutrition_" ++ toString now,
    title := mission.title,
    description := mission.description,
    category := "nutrition",
    difficulty := mission.difficulty,
    xpReward := if mission.difficulty = .easy then 12
                else if mission.difficulty = .medium then 22 else 32,
    coinReward := if mission.difficulty = .easy then 6
                  else if mission.difficulty = .medium then 11 else 16,
    estimatedTime := mission.estimatedTime,
    type := .habit,
    isCompleted := false,
    streak := none }

/-- `createSleepMission(user)`: a single fixed mission. -/
def createSleepMission (u : User) (now : Nat) : DailyMission :=
  { id := "sleep_" ++ toString now,
    title := "😴 Sleep Optimization",
    description := "Set a bedtime alarm and put away devices 1 hour before bed",
    category := "sleep",
    difficulty := .medium,
    xpReward := 18,
    coinReward := 9,
    estimatedTime := 5,
    type := .habit,
    isCompleted := false,
    streak := none }

/-- The `stressMissions` pool in `createStressMission`. -/
def stressMissions : List MissionSeed :=
  [{ title := "🧘‍♂️ Mindful Moment",
     description := "Practice 5 minutes of deep breathing or meditation",
     difficulty := .easy, estimatedTime := 5 },
   { title := "📝 Gratitude Practice",
     description := "Write down 3 things you\x27re grateful for",
     difficulty := .easy, estimatedTime := 3 },
   { title := "🎵 Stress Release",
     description := "Listen to calming music for 10 minutes",
     difficulty := .easy, estimatedTime := 10 }]

/-- `createStressMission(user)`: fixed 10 XP / 5 coins regardless of pick. -/
def createStressMission (u : User) (k : Nat) (now : Nat) : DailyMission :=
  let mission := stressMissions.getD (k % stressMissions.length)
    ⟨"", "", .easy, 0⟩
  { id := "stress_" ++ toString now,
    title := mission.title,
    description := mission.description,
    category := "stress",
    difficulty := mission.difficulty,
    xpReward := 10,
    coinReward := 5,
    estimatedTime := mission.estimatedTime,
    type := .habit,
    isCompleted := false,
    streak := none }

/-- The `varietyMissions` pool in `createVarietyMission`. -/
def varietyMissions : List VarietySeed :=
  [{ title := "📚 Learn Something New",
     description := "Spend 10 minutes learning about health and wellness",
     difficulty := .easy, estimatedTime := 10, category := "learning" },
   { title := "🌿 Nature Connection",
     description := "Spend 15 minutes in nature or by a window",
     difficulty := .easy, estimatedTime := 15, category := "wellness" },
   { title := "🤝 Social Wellness",
     description := "Have a meaningful conversation with someone",
     difficulty := .medium, estimatedTime := 20, category := "social" }]

/-- `createVarietyMission(user)`. -/
def createVarietyMission (u : User) (k : Nat) (now : Nat) : DailyMission :=
  let mission := varietyMissions.getD (k % varietyMissions.length)
    ⟨"", "", .easy, 0, ""⟩
  { id := "variety_" ++ toString now,
    title := mission.title,
    description := mission.description,
    category := mission.category,
    difficulty := mission.difficulty,
    xpReward := if mission.difficulty = .easy then 8
                else if mission.difficulty = .medium then 15 else 25,
    coinReward := if mission.difficulty = .easy then 4
                  else if mission.difficulty = .medium then 7 else 12,
    estimatedTime := mission.estimatedTime,
    type := .habit,
    isCompleted := false,
    streak := none }

/-- The in-memory `Map<string, User>` store, as an association list with
unique keys; `this.users.get(userId)` via `getUser`. -/
def getUser (users : List (String × User)) (userId : String) : Option User :=
  (users.find? (fun p => p.1 == userId)).map (fun p => p.2)

/-- In-place mutation of the user object held in the map: replace the entry. -/
def setUser (users : List (String × User)) (userId : String) (u : User) :
    List (String × User) :=
  users.map (fun p => if p.1 == userId then (p.1, u) else p)

/-- The `while (missions.length < missionCount)` variety-filler loop of
`generateDailyMissions`: each iteration appends one variety mission and
advances the random draw. -/
def fillVariety (u : User) (rand : Nat → Nat) (now : Nat) (count : Nat)
    (draw : Nat) (missions : List DailyMission) : List DailyMission :=
  if missions.length < count then
    fillVariety u rand now count (draw + 1)
      (missions ++ [createVarietyMission u (rand draw) now])
  else missions
termination_by count - missions.length
decreasing_by simp; omega

/-- `generateDailyMissions(userId)`: unknown users yield `[]`; otherwise the
five gap/threshold rules fire, variety missions fill the shortfall, and the
list is cut to `min(3 + floor(level / 5), 7)`. -/
def generateDailyMissions (users : List (String × User)) (userId : String)
    (rand : Nat → Nat) (now : Nat) : List DailyMission :=
  match getUser users userId with
  | none => []
  | some user =>
    let missionCount := min (3 + user.progress.level / 5) 7
    let m1 : List DailyMission :=
      if user.goals.energyLevel.threeMonths > user.baseline.energyLevel then
        [createEnergyMission user (rand 0) now]
      else []
    let m2 := m1 ++
      (if user.goals.physicalFitness.threeMonths > user.baseline.physicalFitness then
        [createFitnessMission user (rand 1) now]
       else [])
    let m3 := m2 ++
      (if user.baseline.nutritionQuality < 7 then
        [createNutritionMission user (rand 2) now]
       else [])
    let m4 := m3 ++
      (if user.baseline.sleepQuality < 8 then [createSleepMission user now] else [])
    let m5 := m4 ++
      (if user.baseline.stressManagement < 7 then
        [createStressMission user (rand 3) now]
       else [])
    (fillVariety user rand now missionCount 4 m5).take missionCount

/-- The static achievement table built by the constructor (the
`initialize`-achievements method). -/
def achievementTable : List Achievement :=
  [{ id := "first_mission", title := "🎯 First Steps",
     description := "Complete your first daily mission", icon := "🎯",
     xpReward := 50, unlockedAt := none,
     requirements := [⟨.total_missions, 1, none⟩] },
   { id := "week_warrior", title := "⚔️ Week Warrior",
     description := "Complete missions for 7 days straight", icon := "⚔️",
     xpReward := 200, unlockedAt := none,
     requirements := [⟨.streak, 7, some "daily"⟩] },
   { id := "fitness_fanatic", title := "💪 Fitness Fanatic",
     description := "Complete 20 fitness missions", icon := "💪",
     xpReward := 300, unlockedAt := none,
     requirements := [⟨.category_progress, 20, some "fitness"⟩] },
   { id := "level_10", title := "🌟 Rising Star",
     description := "Reach level 10", icon := "🌟",
     xpReward := 500, unlockedAt := none,
     requirements := [⟨.goal_reached, 10, none⟩] }]

/-- `user.progress.streaks[category] || 0` (a stored `0` is falsy and also
yields `0`, so the association-list default coincides). -/
def lookupStreak (streaks : List (String × Int)) (category : String) : Int :=
  match streaks.find? (fun p => p.1 == category) with
  | some p => p.2
  | none => 0

/-- One requirement check in `checkAchievements`: the `switch` flips
`requirementsMet` for `total_missions` and `streak` shortfalls only; the
`category_progress` and `goal_reached` kinds have no case and fall through
satisfied. -/
def requirementHolds (p : UserProgress) (r : Requirement) : Bool :=
  match r.type with
  | .total_missions => ¬ (p.completedMissions.length < r.value)
  | .streak => ¬ (lookupStreak p.streaks (r.category.getD "any") < (r.value : Int))
  | .category_progress => true
  | .goal_reached => true

/-- One iteration of the `checkAchievements` loop: skip achievements already
unlocked; otherwise, when every requirement passes, push the id and add the
achievement's XP.  (The source also stamps `unlockedAt` on the shared
achievement table and collects the `newAchievements` return value, neither of
which feeds back into user state.) -/
def unlockStep (u : User) (a : Achievement) : User :=
  if u.progress.unlockedAchievements.contains a.id then u
  else if a.requirements.all (requirementHolds u.progress) then
    { u with progress :=
        { u.progress with
          unlockedAchievements := u.progress.unlockedAchievements ++ [a.id],
          xp := u.progress.xp + a.xpReward } }
  else u

/-- `checkAchievements(user)` over the static table. -/
def checkAchievements (u : User) : User :=
  achievementTable.foldl unlockStep u

/-- The reward block at the top of `completeMission`: flat 20 XP and 10 coins
(the mission's own rewards are not consulted), the completed-mission log and
`lastActive` update. -/
def applyMissionRewards (u : User) (missionId : String) (now : Nat) : User :=
  { u with progress :=
      { u.progress with
        xp := u.progress.xp + 20,
        coins := u.progress.coins + 10,
        completedMissions := u.progress.completedMissions ++ [missionId],
        lastActive := now } }

/-- `checkLevelUp(user)`: threshold `level * 100`, a single check per call;
on success the level increments and the new level times 10 is paid in coins. -/
def checkLevelUp (u : User) : User :=
  let xpRequired : Int := u.progress.level * 100
  if u.progress.xp ≥ xpRequired then
    { u with progress :=
        { u.progress with
          level := u.progress.level + 1,
          coins := u.progress.coins + (u.progress.level + 1) * 10 } }
  else u

/-- The found-user path of `completeMission`: rewards, then level-up check,
then achievement check, then the `updatedAt` stamp. -/
def completeMissionUser (u : User) (missionId : String) (now : Nat) : User :=
  let u1 := applyMissionRewards u missionId now
  let u2 := checkLevelUp u1
  let u3 := checkAchievements u2
  { u3 with updatedAt := now }

/-- `completeMission(userId, missionId)`: `false` and an untouched store for
an unknown user, otherwise `true` and the updated user written back. -/
def completeMission (users : List (String × User)) (userId missionId : String)
    (now : Nat) : Bool × List (String × User) :=
  match getUser users userId with
  | none => (false, users)
  | some user => (true, setUser users userId (completeMissionUser user missionId now))

/-- `completeMissionAPI(userId, missionId)`: a failed completion is surfaced
as a thrown `Error('Failed to complete mission')`; on success the handler
returns its `{success: true, ...}` payload, embedded here as the updated
store (the progress-report rendering is presentation). -/
def completeMissionAPI (users : List (String × User)) (userId missionId : String)
    (now : Nat) : Except String (List (String × User)) :=
  let r := completeMission users userId missionId now
  if r.1 then .ok r.2 else .error "Failed to complete mission"

end Vitality

/-- Concrete baseline (the worked example of the spec: 30 minutes available,
strength 2, endurance 3, flexibility 5, beginner, bodyweight only). -/
def qBase : Quest.FitnessBaseline :=
  { currentWeight := 180, height := 70, age := 30, activityLevel := .sedentary,
    workoutFrequency := 0, workoutDuration := 0, fitnessExperience := .beginner,
    preferredActivities := [], currentStrengthLevel := 2, currentEnduranceLevel := 3,
    currentFlexibilityLevel := 5, timeAvailable := 30, budget := .none,
    equipment := ["bodyweight_only"], limitations := [], motivation := 5 }

/-- Concrete goals (weight-loss primary goal, strength 6 / endurance 7 /
flexibility 5 targets). -/
def qGoals : Quest.FitnessGoals :=
  { targetWeight := some 170, primaryGoal := .weight_loss, targetStrengthLevel := 6,
    targetEnduranceLevel := 7, targetFlexibilityLevel := 5, timeframe := 3,
    priority := .high, specificTargets := [] }

/-- A bare cardio mission with a given id and estimated time, for feeding the
prioritizer concrete lists. -/
def qMission (n : String) (t : ℚ) : Quest.DailyMission :=
  { id := n, title := "", description := "", category := .cardio,
    difficulty := .easy, estimatedTime := t, equipment := [], instructions := [] }

/-- 20-minute mission. -/
def qm1 : Quest.DailyMission := qMission "m1" 20

/-- 25-minute mission. -/
def qm2 : Quest.DailyMission := qMission "m2" 25

/-- 5-minute mission. -/
def qm3 : Quest.DailyMission := qMission "m3" 5

/-- Three equal-category missions totalling 50 minutes against a 30-minute
budget: the middle one does not fit but the last one does. -/
def qOverList : List Quest.DailyMission := [qm1, qm2, qm3]

/-- The same baseline with a roomy 300-minute budget, under which the
prioritizer leaves the generated list untouched. -/
def qBaseBig : Quest.FitnessBaseline :=
  { qBase with timeAvailable := 300 }

/-- Goals whose strength and flexibility gaps are zero, so only the cardio
and recovery rules fire. -/
def qGoalsCardio : Quest.FitnessGoals :=
  { qGoals with targetStrengthLevel := 2 }

/-- Concrete gamified baseline. -/
def vBaseline : Vitality.UserBaseline :=
  { energyLevel := 4, physicalFitness := 3, strength := 1, flexibility := 1,
    weight := 180, height := 70, nutritionQuality := 1, hydration := 1,
    sleepQuality := 1, stressManagement := 1, currentChallenges := [] }

/-- Concrete goal timeframe. -/
def vTimeframe : Vitality.GoalTimeframe :=
  { threeMonths := 7, sixMonths := 6, oneYear := 7, fiveYears := 8, tenYears := 8 }

/-- Concrete gamified goals. -/
def vGoals : Vitality.UserGoals :=
  { energyLevel := vTimeframe, physicalFitness := vTimeframe,
    weight := { threeMonths := 170, sixMonths := 0, oneYear := 0, fiveYears := 0,
                tenYears := 0 },
    customGoals := [] }

/-- A fresh level-1 user with 90 XP, no completed missions and no unlocked
achievements. -/
def vUser : Vitality.User :=
  { id := "u1", name := "Alex", baseline := vBaseline, goals := vGoals,
    progress := { level := 1, xp := 90, coins := 100, streaks := [],
                  completedMissions := [], unlockedAchievements := [],
                  lastActive := 0 },
    surveyResponses := [], createdAt := 0, updatedAt := 0 }

/-- A one-user store. -/
def vStore : List (String × Vitality.User) := [("u1", vUser)]

/-- A survey answer that legitimately reports energy level 0. -/
def vZeroEnergyResponses : List Vitality.SurveyResponse :=
  [{ questionId := "baseline_energy", value := .num 0, timestamp := 0 }]

/-- Shifting the accumulator out of the `totalTime` fold. -/
theorem Quest.totalTime_foldl (missions : List Quest.DailyMission) :
    ∀ c : ℚ, missions.foldl (fun sum mission => sum + mission.estimatedTime) c
      = c + missions.foldl (fun sum mission => sum + mission.estimatedTime) 0 := by
  induction missions with
  | nil => intro c; simp
  | cons m rest ih =>
    intro c
    rw [List.foldl_cons, List.foldl_cons, ih (c + m.estimatedTime),
      ih (0 + m.estimatedTime)]
    ring

/-- `totalTime` distributes over `cons`. -/
theorem Quest.totalTime_cons (m : Quest.DailyMission) (rest : List Quest.DailyMission) :
    Quest.totalTime (m :: rest) = m.estimatedTime + Quest.totalTime rest := by
  simp only [Quest.totalTime, List.foldl_cons]
  rw [Quest.totalTime_foldl rest (0 + m.estimatedTime)]
  ring

/-- The stateful `filter` fold computes the recursive greedy scan. -/
theorem Quest.filterFold_eq_greedyScan (budget : ℚ) :
    ∀ (l : List Quest.DailyMission) (cur : ℚ) (acc : List Quest.DailyMission),
      (l.foldl (Quest.filterStep budget) (cur, acc)).2
        = acc ++ Quest.greedyScan budget cur l := by
  intro l
  induction l with
  | nil => intro cur acc; simp [Quest.greedyScan]
  | cons m rest ih =>
    intro cur acc
    simp only [List.foldl_cons, Quest.filterStep, Quest.greedyScan]
    by_cases h : cur + m.estimatedTime ≤ budget
    · simp only [if_pos h, ih, List.append_assoc, List.singleton_append]
    · simp only [if_neg h, ih]

/-- `filterFit` is the greedy scan started from a zero running total. -/
theorem Quest.filterFit_eq_greedyScan (budget : ℚ) (l : List Quest.DailyMission) :
    Quest.filterFit budget l = Quest.greedyScan budget 0 l := by
  simp [Quest.filterFit, Quest.filterFold_eq_greedyScan]

/-- The greedy scan keeps a sublist (order-preserving subset) of its input. -/
theorem Quest.greedyScan_sublist (budget : ℚ) :
    ∀ (l : List Quest.DailyMission) (cur : ℚ),
      (Quest.greedyScan budget cur l).Sublist l := by
  intro l
  induction l with
  | nil => intro cur; simp [Quest.greedyScan]
  | cons m rest ih =>
    intro cur
    simp only [Quest.greedyScan]
    by_cases h : cur + m.estimatedTime ≤ budget
    · simpa [h] using List.Sublist.cons₂ m (ih (cur + m.estimatedTime))
    · simpa [h] using List.Sublist.cons m (ih cur)

/-- The greedy scan never lets the running total pass the budget. -/
theorem Quest.greedyScan_total (budget : ℚ) :
    ∀ (l : List Quest.DailyMission) (cur : ℚ), cur ≤ budget →
      cur + Quest.totalTime (Quest.greedyScan budget cur l) ≤ budget := by
  intro l
  induction l with
  | nil =>
    intro cur h
    simpa [Quest.greedyScan, Quest.totalTime] using h
  | cons m rest ih =>
    intro cur h
    simp only [Quest.greedyScan]
    by_cases hm : cur + m.estimatedTime ≤ budget
    · rw [if_pos hm, Quest.totalTime_cons]
      have := ih (cur + m.estimatedTime) hm
      linarith
    · rw [if_neg hm]
      exact ih cur h

/-- Membership in an insertion step. -/
theorem Quest.mem_insertSorted (key : Quest.DailyMission → Int)
    (a m : Quest.DailyMission) :
    ∀ l : List Quest.DailyMission,
      m ∈ Quest.insertSorted key a l ↔ m = a ∨ m ∈ l := by
  intro l
  induction l with
  | nil => simp [Quest.insertSorted]
  | cons x xs ih =>
    simp only [Quest.insertSorted]
    by_cases h : key x < key a
    · simp only [if_pos h, List.mem_cons, ih]
      tauto
    · simp only [if_neg h, List.mem_cons]

/-- The stable sort permutes membership. -/
theorem Quest.mem_sortByKey (key : Quest.DailyMission → Int)
    (m : Quest.DailyMission) :
    ∀ l : List Quest.DailyMission, m ∈ Quest.sortByKey key l ↔ m ∈ l := by
  intro l
  induction l with
  | nil => simp [Quest.sortByKey]
  | cons x xs ih =>
    simp [Quest.sortByKey, Quest.mem_insertSorted, ih]

/-- C5: when the candidate missions' total estimated time fits within the
baseline's available time, `prioritizeMissions` returns the input list
unchanged, in generation order. -/
theorem c5_under_budget_returns_input (ms : List Quest.DailyMission)
    (b : Quest.FitnessBaseline) (g : Quest.FitnessGoals)
    (h : Quest.totalTime ms ≤ b.timeAvailable) :
    Quest.prioritizeMissions ms b g = ms := by
  rw [Quest.prioritizeMissions, if_neg (not_lt.mpr h)]

/-- Witness for C5 at a concrete one-mission list against the 30-minute
baseline. -/
theorem c5_under_budget_returns_input_witness :
    Quest.totalTime [qm3] ≤ qBase.timeAvailable ∧
    Quest.prioritizeMissions [qm3] qBase qGoals = [qm3] :=
  ⟨by norm_num [Quest.totalTime, qm3, qMission, qBase],
   c5_under_budget_returns_input [qm3] qBase qGoals
     (by norm_num [Quest.totalTime, qm3, qMission, qBase])⟩

/-- C6: when the candidates' total estimated time exceeds the (nonnegative)
available time, the prioritized output's cumulative estimated time never
exceeds the budget. -/
theorem c6_over_budget_output_fits (ms : List Quest.DailyMission)
    (b : Quest.FitnessBaseline) (g : Quest.FitnessGoals)
    (h0 : 0 ≤ b.timeAvailable) (h : Quest.totalTime ms > b.timeAvailable) :
    Quest.totalTime (Quest.prioritizeMissions ms b g) ≤ b.timeAvailable := by
  rw [Quest.prioritizeMissions, if_pos h, Quest.filterFit_eq_greedyScan]
  have := Quest.greedyScan_total b.timeAvailable (Quest.sortMissions ms g) 0 h0
  linarith

/-- Witness for C6 at a 50-minute list against the 30-minute baseline. -/
theorem c6_over_budget_output_fits_witness :
    (0 ≤ qBase.timeAvailable ∧ Quest.totalTime qOverList > qBase.timeAvailable) ∧
    Quest.totalTime (Quest.prioritizeMissions qOverList qBase qGoals)
      ≤ qBase.timeAvailable :=
  ⟨⟨by norm_num [qBase],
    by norm_num [Quest.totalTime, qOverList, qm1, qm2, qm3, qMission, qBase]⟩,
   c6_over_budget_output_fits qOverList qBase qGoals (by norm_num [qBase])
     (by norm_num [Quest.totalTime, qOverList, qm1, qm2, qm3, qMission, qBase])⟩

/-- C1 counterexample: with sorted times 20, 25, 5 against a 30-minute budget
the scan drops the 25-minute mission yet keeps the 5-minute mission after it,
so the kept missions are not a prefix of the sorted list and a mission after
the first dropped one survives. -/
theorem c1_kept_after_drop_counterexample :
    Quest.totalTime qOverList > qBase.timeAvailable ∧
    Quest.sortMissions qOverList qGoals = [qm1, qm2, qm3] ∧
    Quest.prioritizeMissions qOverList qBase qGoals = [qm1, qm3] ∧
    qm2 ∉ Quest.prioritizeMissions qOverList qBase qGoals ∧
    qm3 ∈ Quest.prioritizeMissions qOverList qBase qGoals := by
  have htot : Quest.totalTime qOverList > qBase.timeAvailable := by
    norm_num [Quest.totalTime, qOverList, qm1, qm2, qm3, qMission, qBase]
  have hsort : Quest.sortMissions qOverList qGoals = [qm1, qm2, qm3] := by decide
  have hp : Quest.prioritizeMissions qOverList qBase qGoals = [qm1, qm3] := by
    rw [Quest.prioritizeMissions, if_pos htot, hsort,
      Quest.filterFit_eq_greedyScan]
    norm_num [Quest.greedyScan, qm1, qm2, qm3, qMission, qBase]
  refine ⟨htot, hsort, hp, by rw [hp]; decide, by rw [hp]; decide⟩

/-- C1 (amended): over budget, the greedy scan of `prioritizeMissions` walks
the whole goal-sorted list keeping exactly the missions that still fit the
running total of previously kept missions — it keeps scanning past a dropped
mission, so the kept missions form a sublist, not necessarily a prefix, of
the sorted order. -/
theorem c1_greedy_scan_keeps_scanning (ms : List Quest.DailyMission)
    (b : Quest.FitnessBaseline) (g : Quest.FitnessGoals)
    (h : Quest.totalTime ms > b.timeAvailable) :
    Quest.prioritizeMissions ms b g
      = Quest.greedyScan b.timeAvailable 0 (Quest.sortMissions ms g) ∧
    (Quest.prioritizeMissions ms b g).Sublist (Quest.sortMissions ms g) := by
  rw [Quest.prioritizeMissions, if_pos h, Quest.filterFit_eq_greedyScan]
  exact ⟨rfl, Quest.greedyScan_sublist _ _ 0⟩

/-- Witness for the amended C1 at the concrete over-budget list. -/
theorem c1_greedy_scan_keeps_scanning_witness :
    Quest.totalTime qOverList > qBase.timeAvailable ∧
    (Quest.prioritizeMissions qOverList qBase qGoals
       = Quest.greedyScan qBase.timeAvailable 0 (Quest.sortMissions qOverList qGoals) ∧
     (Quest.prioritizeMissions qOverList qBase qGoals).Sublist
       (Quest.sortMissions qOverList qGoals)) :=
  ⟨by norm_num [Quest.totalTime, qOverList, qm1, qm2, qm3, qMission, qBase],
   c1_greedy_scan_keeps_scanning qOverList qBase qGoals
     (by norm_num [Quest.totalTime, qOverList, qm1, qm2, qm3, qMission, qBase])⟩

/-- C7: for a user id absent from the store, `completeMission` returns `false`
and leaves the store (hence every user's progress record) untouched, and
`completeMissionAPI` turns that into the thrown completion-failure error
rather than a success result. -/
theorem c7_unknown_user_failure (users : List (String × Vitality.User))
    (userId missionId : String) (now : Nat)
    (h : Vitality.getUser users userId = none) :
    Vitality.completeMission users userId missionId now = (false, users) ∧
    Vitality.completeMissionAPI users userId missionId now
      = .error "Failed to complete mission" := by
  constructor
  · rw [Vitality.completeMission, h]
  · simp [Vitality.completeMissionAPI, Vitality.completeMission, h]

/-- Witness for C7: an id not in the one-user store. -/
theorem c7_unknown_user_failure_witness :
    Vitality.getUser vStore "nobody" = none ∧
    (Vitality.completeMission vStore "nobody" "m1" 3 = (false, vStore) ∧
     Vitality.completeMissionAPI vStore "nobody" "m1" 3
       = .error "Failed to complete mission") :=
  ⟨by decide, c7_unknown_user_failure vStore "nobody" "m1" 3 (by decide)⟩

/-- One achievement iteration never changes the level. -/
theorem Vitality.unlockStep_level (u : Vitality.User) (a : Vitality.Achievement) :
    (Vitality.unlockStep u a).progress.level = u.progress.level := by
  unfold Vitality.unlockStep
  split_ifs <;> rfl

/-- One achievement iteration never changes the coin balance. -/
theorem Vitality.unlockStep_coins (u : Vitality.User) (a : Vitality.Achievement) :
    (Vitality.unlockStep u a).progress.coins = u.progress.coins := by
  unfold Vitality.unlockStep
  split_ifs <;> rfl

/-- One achievement iteration never changes the completed-mission log. -/
theorem Vitality.unlockStep_completed (u : Vitality.User) (a : Vitality.Achievement) :
    (Vitality.unlockStep u a).progress.completedMissions
      = u.progress.completedMissions := by
  unfold Vitality.unlockStep
  split_ifs <;> rfl

/-- One achievement iteration never changes the streak counters. -/
theorem Vitality.unlockStep_streaks (u : Vitality.User) (a : Vitality.Achievement) :
    (Vitality.unlockStep u a).progress.streaks = u.progress.streaks := by
  unfold Vitality.unlockStep
  split_ifs <;> rfl

/-- `checkAchievements` never changes the level. -/
theorem Vitality.checkAchievements_level (u : Vitality.User) :
    (Vitality.checkAchievements u).progress.level = u.progress.level := by
  unfold Vitality.checkAchievements Vitality.achievementTable
  simp [Vitality.unlockStep_level]

/-- `checkAchievements` never changes the coin balance. -/
theorem Vitality.checkAchievements_coins (u : Vitality.User) :
    (Vitality.checkAchievements u).progress.coins = u.progress.coins := by
  unfold Vitality.checkAchievements Vitality.achievementTable
  simp [Vitality.unlockStep_coins]

/-- `checkLevelUp` only touches the level and coins. -/
theorem Vitality.checkLevelUp_keeps (u : Vitality.User) :
    (Vitality.checkLevelUp u).progress.xp = u.progress.xp ∧
    (Vitality.checkLevelUp u).progress.completedMissions
      = u.progress.completedMissions ∧
    (Vitality.checkLevelUp u).progress.streaks = u.progress.streaks ∧
    (Vitality.checkLevelUp u).progress.unlockedAchievements
      = u.progress.unlockedAchievements := by
  simp only [Vitality.checkLevelUp]
  split_ifs <;> exact ⟨rfl, rfl, rfl, rfl⟩

/-- C2: a user at level 1 with 90 XP who completes any mission gains the flat
20 XP / 10 coins (the mission's own rewards are not consulted), crosses the
`level × 100 = 100` threshold, and the single level-up check promotes them to
level 2 and pays the further `newLevel × 10 = 20` coin bonus, for 30 coins in
total. -/
theorem c2_flat_reward_single_level_up (u : Vitality.User) (missionId : String)
    (now : Nat) (h1 : u.progress.level = 1) (h2 : u.progress.xp = 90) :
    (Vitality.applyMissionRewards u missionId now).progress.xp
      = u.progress.xp + 20 ∧
    (Vitality.applyMissionRewards u missionId now).progress.coins
      = u.progress.coins + 10 ∧
    (u.progress.level * 100 : Int) = 100 ∧
    (Vitality.completeMissionUser u missionId now).progress.level = 2 ∧
    (Vitality.completeMissionUser u missionId now).progress.coins
      = u.progress.coins + 10 + 20 := by
  have hlvl : Vitality.checkLevelUp (Vitality.applyMissionRewards u missionId now)
      = { Vitality.applyMissionRewards u missionId now with progress :=
            { (Vitality.applyMissionRewards u missionId now).progress with
              level := u.progress.level + 1,
              coins := u.progress.coins + 10 + (u.progress.level + 1) * 10 } } := by
    simp only [Vitality.checkLevelUp]
    rw [if_pos]
    · rfl
    · show (Vitality.applyMissionRewards u missionId now).progress.xp
        ≥ ((Vitality.applyMissionRewards u missionId now).progress.level * 100 : Int)
      simp only [Vitality.applyMissionRewards, h1, h2]
      norm_num
  have hprog : (Vitality.completeMissionUser u missionId now).progress
      = (Vitality.checkAchievements (Vitality.checkLevelUp
          (Vitality.applyMissionRewards u missionId now))).progress := by
    simp only [Vitality.completeMissionUser]
  refine ⟨rfl, rfl, by rw [h1]; norm_num, ?_, ?_⟩
  · rw [hprog, Vitality.checkAchievements_level, hlvl]
    simp [h1]
  · rw [hprog, Vitality.checkAchievements_coins, hlvl]
    simp [h1]

/-- Witness for C2 at the concrete level-1 / 90-XP user. -/
theorem c2_flat_reward_single_level_up_witness :
    (vUser.progress.level = 1 ∧ vUser.progress.xp = 90) ∧
    ((Vitality.applyMissionRewards vUser "m1" 7).progress.xp
       = vUser.progress.xp + 20 ∧
     (Vitality.applyMissionRewards vUser "m1" 7).progress.coins
       = vUser.progress.coins + 10 ∧
     (vUser.progress.level * 100 : Int) = 100 ∧
     (Vitality.completeMissionUser vUser "m1" 7).progress.level = 2 ∧
     (Vitality.completeMissionUser vUser "m1" 7).progress.coins
       = vUser.progress.coins + 10 + 20) :=
  ⟨⟨rfl, rfl⟩, c2_flat_reward_single_level_up vUser "m1" 7 rfl rfl⟩

/-- C9: `processSurveyResponses` substitutes the fixed fallback `1` for
`energyLevel` whenever the stored `baseline_energy` value coerces to a falsy
number — whether because the entry is absent (`NaN`) or because the supplied
value coerces to `0` or `NaN` — so a legitimately supplied `0` is
indistinguishable from an absent answer. -/
theorem c9_falsy_energy_fallback (responses : List Vitality.SurveyResponse) :
    (∀ v, Vitality.mapGet responses "baseline_energy" = some v →
      (Vitality.toNumber v = none ∨ Vitality.toNumber v = some 0) →
      (Vitality.processSurveyResponses responses).energyLevel = 1) ∧
    (Vitality.mapGet responses "baseline_energy" = none →
      (Vitality.processSurveyResponses responses).energyLevel = 1) := by
  constructor
  · intro v hv hfalsy
    show Vitality.numOr 1 (Vitality.mapGet responses "baseline_energy") = 1
    rw [hv]
    unfold Vitality.numOr
    rcases hfalsy with h | h <;> simp [h]
  · intro hnone
    show Vitality.numOr 1 (Vitality.mapGet responses "baseline_energy") = 1
    rw [hnone]
    rfl

/-- Witness for C9: a survey that answers `baseline_energy` with a literal 0
still yields energy level 1. -/
theorem c9_falsy_energy_fallback_witness :
    (Vitality.mapGet vZeroEnergyResponses "baseline_energy"
       = some (Vitality.SurveyValue.num 0) ∧
     Vitality.toNumber (Vitality.SurveyValue.num 0) = some 0) ∧
    (Vitality.processSurveyResponses vZeroEnergyResponses).energyLevel = 1 :=
  ⟨⟨by decide, by decide⟩,
   (c9_falsy_energy_fallback vZeroEnergyResponses).1 (Vitality.SurveyValue.num 0)
     (by decide) (Or.inr (by decide))⟩

/-- The variety-filler loop grows the list exactly up to the mission count
(fuel-indexed induction on the remaining shortfall). -/
theorem Vitality.fillVariety_length (u : Vitality.User) (rand : Nat → Nat)
    (now : Nat) (count : Nat) :
    ∀ (fuel draw : Nat) (ms : List Vitality.DailyMission),
      count - ms.length ≤ fuel →
      (Vitality.fillVariety u rand now count draw ms).length
        = max ms.length count := by
  intro fuel
  induction fuel with
  | zero =>
    intro draw ms h
    rw [Vitality.fillVariety, if_neg (by omega)]
    omega
  | succ n ih =>
    intro draw ms h
    rw [Vitality.fillVariety]
    by_cases hlt : ms.length < count
    · rw [if_pos hlt, ih (draw + 1) _ (by simp; omega)]
      simp
      omega
    · rw [if_neg hlt]
      omega

/-- Closed form of the filler length. -/
theorem Vitality.fillVariety_len (u : Vitality.User) (rand : Nat → Nat)
    (now : Nat) (count draw : Nat) (ms : List Vitality.DailyMission) :
    (Vitality.fillVariety u rand now count draw ms).length
      = max ms.length count :=
  Vitality.fillVariety_length u rand now count (count - ms.length) draw ms
    (le_refl _)

/-- Everything the variety filler returns is either an input mission or a
variety mission from some random draw. -/
theorem Vitality.fillVariety_mem (u : Vitality.User) (rand : Nat → Nat)
    (now : Nat) (count : Nat) :
    ∀ (fuel draw : Nat) (ms : List Vitality.DailyMission),
      count - ms.length ≤ fuel →
      ∀ m ∈ Vitality.fillVariety u rand now count draw ms,
        m ∈ ms ∨ ∃ j, m = Vitality.createVarietyMission u (rand j) now := by
  intro fuel
  induction fuel with
  | zero =>
    intro draw ms h m hm
    rw [Vitality.fillVariety, if_neg (by omega)] at hm
    exact Or.inl hm
  | succ n ih =>
    intro draw ms h m hm
    rw [Vitality.fillVariety] at hm
    by_cases hlt : ms.length < count
    · rw [if_pos hlt] at hm
      rcases ih (draw + 1) _ (by simp; omega) m hm with hin | hv
      · rcases List.mem_append.mp hin with h1 | h1
        · exact Or.inl h1
        · exact Or.inr ⟨draw, by simpa using h1⟩
      · exact Or.inr hv
    · rw [if_neg hlt] at hm
      exact Or.inl hm

/-- C10: for a stored user, `generateDailyMissions` returns exactly
`min(3 + ⌊level / 5⌋, 7)` missions — the variety filler tops the list up and
`slice` cuts it back when more rules fire — while an unknown user id yields
the empty list rather than an error. -/
theorem c10_daily_mission_count (users : List (String × Vitality.User))
    (userId : String) (rand : Nat → Nat) (now : Nat) :
    (∀ u, Vitality.getUser users userId = some u →
      (Vitality.generateDailyMissions users userId rand now).length
        = min (3 + u.progress.level / 5) 7) ∧
    (Vitality.getUser users userId = none →
      Vitality.generateDailyMissions users userId rand now = []) := by
  constructor
  · intro u hu
    simp only [Vitality.generateDailyMissions, hu]
    rw [List.length_take, Vitality.fillVariety_len]
    omega
  · intro hnone
    simp only [Vitality.generateDailyMissions, hnone]

/-- Witness for C10: the one-user store yields `min(3 + 1/5, 7) = 3` missions
for its user. -/
theorem c10_daily_mission_count_witness :
    Vitality.getUser vStore "u1" = some vUser ∧
    (Vitality.generateDailyMissions vStore "u1" (fun _ => 0) 9).length
      = min (3 + vUser.progress.level / 5) 7 :=
  ⟨by decide,
   (c10_daily_mission_count vStore "u1" (fun _ => 0) 9).1 vUser (by decide)⟩

/-- Sorting by category key does not change which missions appear. -/
theorem Quest.mem_sortMissions (ms : List Quest.DailyMission)
    (g : Quest.FitnessGoals) (m : Quest.DailyMission) :
    m ∈ Quest.sortMissions ms g ↔ m ∈ ms := by
  rw [Quest.sortMissions]
  exact Quest.mem_sortByKey _ m ms

/-- Every mission returned by `generateMissions` comes from the candidate
list. -/
theorem Quest.mem_generateMissions (b : Quest.FitnessBaseline)
    (g : Quest.FitnessGoals) (m : Quest.DailyMission)
    (hm : m ∈ Quest.generateMissions b g) :
    m ∈ Quest.candidateMissions b g := by
  rw [Quest.generateMissions, Quest.prioritizeMissions] at hm
  split_ifs at hm with h
  · rw [Quest.filterFit_eq_greedyScan] at hm
    have hs := (Quest.greedyScan_sublist _ _ 0).subset hm
    exact (Quest.mem_sortMissions _ g m).mp hs
  · exact hm

/-- Every candidate mission is one of the five rule missions. -/
theorem Quest.mem_candidateMissions (b : Quest.FitnessBaseline)
    (g : Quest.FitnessGoals) (m : Quest.DailyMission)
    (hm : m ∈ Quest.candidateMissions b g) :
    m = Quest.strengthGymMission b ∨ m = Quest.strengthBodyweightMission ∨
    m = Quest.cardioMission b ∨ m = Quest.flexibilityMission ∨
    m = Quest.recoveryMission := by
  simp only [Quest.candidateMissions, List.mem_append] at hm
  rcases hm with ((h1 | h1) | h1) | h1 <;> split_ifs at h1 <;> simp_all

/-- Nonnegative-field lemma for pool picks via `getD`. -/
theorem Vitality.getD_nonneg {α : Type} (f : α → ℚ) (l : List α) (n : Nat)
    (d : α) (hl : ∀ s ∈ l, 0 ≤ f s) (hd : 0 ≤ f d) : 0 ≤ f (l.getD n d) := by
  rcases e : l[n]? with _ | s
  · simpa [List.getD, e] using hd
  · have hm : s ∈ l := List.getElem?_mem e
    simpa [List.getD, e] using hl s hm

/-- The fitness pool, though branching on the user's level, only carries
nonnegative estimated times. -/
theorem Vitality.fitnessMissions_est (u : Vitality.User) :
    ∀ s ∈ Vitality.fitnessMissions u, 0 ≤ s.estimatedTime := by
  intro s hs
  simp only [Vitality.fitnessMissions, List.mem_cons, List.not_mem_nil,
    or_false] at hs
  rcases hs with h | h | h <;> subst h <;> simp <;> split_ifs <;> norm_num

/-- C8: every mission generated by the questionnaire under a nonnegative time
budget, every mission built by the six gamified factories, and every mission
issued by `generateDailyMissions` carries a nonnegative estimated time. -/
theorem c8_estimated_time_nonneg :
    (∀ (b : Quest.FitnessBaseline) (g : Quest.FitnessGoals),
      0 ≤ b.timeAvailable →
      ∀ m ∈ Quest.generateMissions b g, 0 ≤ m.estimatedTime) ∧
    (∀ (u : Vitality.User) (k now : Nat),
      0 ≤ (Vitality.createEnergyMission u k now).estimatedTime ∧
      0 ≤ (Vitality.createFitnessMission u k now).estimatedTime ∧
      0 ≤ (Vitality.createNutritionMission u k now).estimatedTime ∧
      0 ≤ (Vitality.createSleepMission u now).estimatedTime ∧
      0 ≤ (Vitality.createStressMission u k now).estimatedTime ∧
      0 ≤ (Vitality.createVarietyMission u k now).estimatedTime) ∧
    (∀ (users : List (String × Vitality.User)) (userId : String)
      (rand : Nat → Nat) (now : Nat),
      ∀ m ∈ Vitality.generateDailyMissions users userId rand now,
        0 ≤ m.estimatedTime) := by
  have henergy : ∀ (u : Vitality.User) (k now : Nat),
      0 ≤ (Vitality.createEnergyMission u k now).estimatedTime := by
    intro u k now
    show 0 ≤ (Vitality.energyMissions.getD
      (k % Vitality.energyMissions.length)
      ⟨"", "", Vitality.Difficulty.easy, 0⟩).estimatedTime
    exact Vitality.getD_nonneg (fun s : Vitality.MissionSeed => s.estimatedTime)
      Vitality.energyMissions _ _ (by decide) (by decide)
  have hfit : ∀ (u : Vitality.User) (k now : Nat),
      0 ≤ (Vitality.createFitnessMission u k now).estimatedTime := by
    intro u k now
    show 0 ≤ ((Vitality.fitnessMissions u).getD
      (k % (Vitality.fitnessMissions u).length)
      ⟨"", "", Vitality.Difficulty.easy, 0⟩).estimatedTime
    exact Vitality.getD_nonneg (fun s : Vitality.MissionSeed => s.estimatedTime)
      (Vitality.fitnessMissions u) _ _ (Vitality.fitnessMissions_est u)
      (by decide)
  have hnut : ∀ (u : Vitality.User) (k now : Nat),
      0 ≤ (Vitality.createNutritionMission u k now).estimatedTime := by
    intro u k now
    show 0 ≤ (Vitality.nutritionMissions.getD
      (k % Vitality.nutritionMissions.length)
      ⟨"", "", Vitality.Difficulty.easy, 0⟩).estimatedTime
    exact Vitality.getD_nonneg (fun s : Vitality.MissionSeed => s.estimatedTime)
      Vitality.nutritionMissions _ _ (by decide) (by decide)
  have hsleep : ∀ (u : Vitality.User) (now : Nat),
      0 ≤ (Vitality.createSleepMission u now).estimatedTime := by
    intro u now
    norm_num [Vitality.createSleepMission]
  have hstress : ∀ (u : Vitality.User) (k now : Nat),
      0 ≤ (Vitality.createStressMission u k now).estimatedTime := by
    intro u k now
    show 0 ≤ (Vitality.stressMissions.getD
      (k % Vitality.stressMissions.length)
      ⟨"", "", Vitality.Difficulty.easy, 0⟩).estimatedTime
    exact Vitality.getD_nonneg (fun s : Vitality.MissionSeed => s.estimatedTime)
      Vitality.stressMissions _ _ (by decide) (by decide)
  have hvar : ∀ (u : Vitality.User) (k now : Nat),
      0 ≤ (Vitality.createVarietyMission u k now).estimatedTime := by
    intro u k now
    show 0 ≤ (Vitality.varietyMissions.getD
      (k % Vitality.varietyMissions.length)
      ⟨"", "", Vitality.Difficulty.easy, 0, ""⟩).estimatedTime
    exact Vitality.getD_nonneg (fun s : Vitality.VarietySeed => s.estimatedTime)
      Vitality.varietyMissions _ _ (by decide) (by decide)
  refine ⟨?_, fun u k now => ⟨henergy u k now, hfit u k now, hnut u k now,
    hsleep u now, hstress u k now, hvar u k now⟩, ?_⟩
  · intro b g ht m hm
    rcases Quest.mem_candidateMissions b g m (Quest.mem_generateMissions b g m hm)
      with h | h | h | h | h <;> subst h
    · exact le_min (mul_nonneg ht (by norm_num)) (by norm_num)
    · norm_num [Quest.strengthBodyweightMission]
    · exact le_min (mul_nonneg ht (by norm_num)) (by norm_num)
    · norm_num [Quest.flexibilityMission]
    · norm_num [Quest.recoveryMission]
  · intro users userId rand now m hm
    rw [Vitality.generateDailyMissions] at hm
    rcases e : Vitality.getUser users userId with _ | u
    · rw [e] at hm
      simp at hm
    · rw [e] at hm
      simp only at hm
      have hm2 := List.take_subset _ _ hm
      rcases Vitality.fillVariety_mem u rand now _ _ 4 _ (le_refl _) m hm2
        with hin | ⟨j, rfl⟩
      · simp only [List.mem_append, List.mem_ite_nil_right,
          List.mem_singleton] at hin
        rcases hin with ((((h | h) | h) | h) | h) <;> rcases h with ⟨-, rfl⟩
        · exact henergy u _ now
        · exact hfit u _ now
        · exact hnut u _ now
        · exact hsleep u now
        · exact hstress u _ now
      · exact hvar u _ now

/-- Under the roomy baseline with zero strength/flexibility gaps, exactly the
cardio and recovery rules fire. -/
theorem qBaseBig_candidates :
    Quest.candidateMissions qBaseBig qGoalsCardio
      = [Quest.cardioMission qBaseBig, Quest.recoveryMission] := by
  rw [Quest.candidateMissions]
  norm_num [qBaseBig, qGoalsCardio, qBase, qGoals]

/-- Under the roomy baseline the prioritizer returns the two generated
missions unchanged. -/
theorem qBaseBig_generate :
    Quest.generateMissions qBaseBig qGoalsCardio
      = [Quest.cardioMission qBaseBig, Quest.recoveryMission] := by
  rw [Quest.generateMissions, qBaseBig_candidates, Quest.prioritizeMissions,
    if_neg]
  norm_num [Quest.totalTime, Quest.cardioMission, Quest.recoveryMission,
    qBaseBig, qBase, min_def]

/-- C4: the candidate list built by `generateMissions` carries exactly one
cardio mission precisely when the endurance gap is positive or the primary
goal is weight loss; that mission's time is `min(0.6 × timeAvailable, 30)`,
its difficulty is easy below endurance 5 and medium otherwise, and its
instructions are the walking-interval plan below endurance 4 and the
structured interval plan at or above. -/
theorem c4_cardio_emission_rule (b : Quest.FitnessBaseline)
    (g : Quest.FitnessGoals) :
    ((Quest.candidateMissions b g).filter Quest.isCardio
       = (if g.targetEnduranceLevel - b.currentEnduranceLevel > 0
             ∨ g.primaryGoal = Quest.PrimaryGoal.weight_loss
          then [Quest.cardioMission b] else [])) ∧
    (∀ m ∈ Quest.candidateMissions b g, m.category = Quest.Category.cardio →
      (m.estimatedTime = min (b.timeAvailable * 0.6) 30 ∧
       m.difficulty = (if b.currentEnduranceLevel < 5 then Quest.Difficulty.easy
                       else Quest.Difficulty.medium) ∧
       m.instructions =
         (if b.currentEnduranceLevel < 4 then
           [toString (min (b.timeAvailable * 0.6) 30)
              ++ "-minute beginner cardio:",
            "- 5 minutes easy walking",
            "- Alternate 1 minute brisk walk, 1 minute easy walk",
            "- End with 5 minutes easy walking",
            "- Focus on breathing and form over speed"]
          else
           [toString (min (b.timeAvailable * 0.6) 30)
              ++ "-minute cardio session:",
            "- 5 minute warm-up",
            "- High-intensity intervals: 30 seconds work, 90 seconds rest",
            "- Repeat for main portion of workout",
            "- 5 minute cool-down",
            "- Monitor heart rate if possible"]))) := by
  have hsg : Quest.isCardio (Quest.strengthGymMission b) = false := rfl
  have hsb : Quest.isCardio Quest.strengthBodyweightMission = false := rfl
  have hca : Quest.isCardio (Quest.cardioMission b) = true := rfl
  have hfl : Quest.isCardio Quest.flexibilityMission = false := rfl
  have hre : Quest.isCardio Quest.recoveryMission = false := rfl
  constructor
  · simp only [Quest.candidateMissions, List.filter_append]
    split_ifs <;> simp [hsg, hsb, hca, hfl, hre]
  · intro m hm hcat
    rcases Quest.mem_candidateMissions b g m hm with h | h | h | h | h <;> subst h
    · simp [Quest.strengthGymMission] at hcat
    · simp [Quest.strengthBodyweightMission] at hcat
    · refine ⟨rfl, rfl, ?_⟩
      show Quest.getCardioInstructions b.currentEnduranceLevel
        (min (b.timeAvailable * 0.6) 30) = _
      rw [Quest.getCardioInstructions]
    · simp [Quest.flexibilityMission] at hcat
    · simp [Quest.recoveryMission] at hcat

/-- Witness for C4 at the roomy baseline: the cardio rule fires and the
emitted mission has the stated time, difficulty and instruction plan. -/
theorem c4_cardio_emission_rule_witness :
    (Quest.cardioMission qBaseBig ∈ Quest.candidateMissions qBaseBig qGoalsCardio ∧
     (Quest.cardioMission qBaseBig).category = Quest.Category.cardio) ∧
    ((Quest.cardioMission qBaseBig).estimatedTime
        = min (qBaseBig.timeAvailable * 0.6) 30 ∧
     (Quest.cardioMission qBaseBig).difficulty
        = (if qBaseBig.currentEnduranceLevel < 5 then Quest.Difficulty.easy
           else Quest.Difficulty.medium) ∧
     (Quest.cardioMission qBaseBig).instructions =
       (if qBaseBig.currentEnduranceLevel < 4 then
         [toString (min (qBaseBig.timeAvailable * 0.6) 30)
            ++ "-minute beginner cardio:",
          "- 5 minutes easy walking",
          "- Alternate 1 minute brisk walk, 1 minute easy walk",
          "- End with 5 minutes easy walking",
          "- Focus on breathing and form over speed"]
        else
         [toString (min (qBaseBig.timeAvailable * 0.6) 30)
            ++ "-minute cardio session:",
          "- 5 minute warm-up",
          "- High-intensity intervals: 30 seconds work, 90 seconds rest",
          "- Repeat for main portion of workout",
          "- 5 minute cool-down",
          "- Monitor heart rate if possible"])) := by
  have hm : Quest.cardioMission qBaseBig
      ∈ Quest.candidateMissions qBaseBig qGoalsCardio := by
    rw [qBaseBig_candidates]
    simp
  exact ⟨⟨hm, rfl⟩,
    (c4_cardio_emission_rule qBaseBig qGoalsCardio).2 _ hm rfl⟩

/-- Witness for C8: the recovery mission survives generation under the roomy
baseline and indeed has nonnegative estimated time. -/
theorem c8_estimated_time_nonneg_witness :
    (0 ≤ qBaseBig.timeAvailable ∧
     Quest.recoveryMission ∈ Quest.generateMissions qBaseBig qGoalsCardio) ∧
    0 ≤ Quest.recoveryMission.estimatedTime := by
  have hmem : Quest.recoveryMission
      ∈ Quest.generateMissions qBaseBig qGoalsCardio := by
    rw [qBaseBig_generate]
    simp
  exact ⟨⟨by norm_num [qBaseBig, qBase], hmem⟩,
    c8_estimated_time_nonneg.1 qBaseBig qGoalsCardio
      (by norm_num [qBaseBig, qBase]) Quest.recoveryMission hmem⟩

/-- `List.contains` evaluates to `false` for a non-member. -/
theorem Vitality.contains_false {l : List String} {a : String} (h : a ∉ l) :
    l.contains a = false := by
  simp [List.elem_eq_mem, h]

/-- `List.contains` evaluates to `true` for a member. -/
theorem Vitality.contains_true {l : List String} {a : String} (h : a ∈ l) :
    l.contains a = true := by
  simp [List.elem_eq_mem, h]

/-- An already unlocked achievement is skipped. -/
theorem Vitality.unlockStep_skip (u : Vitality.User) (a : Vitality.Achievement)
    (h : u.progress.unlockedAchievements.contains a.id = true) :
    Vitality.unlockStep u a = u := by
  unfold Vitality.unlockStep
  rw [if_pos h]

/-- Achievement unlocking only extends the unlocked set. -/
theorem Vitality.unlockStep_mono (u : Vitality.User) (a : Vitality.Achievement)
    (x : String) (h : x ∈ u.progress.unlockedAchievements) :
    x ∈ (Vitality.unlockStep u a).progress.unlockedAchievements := by
  unfold Vitality.unlockStep
  split_ifs <;> simp [h]

/-- Monotonicity through a whole achievement pass. -/
theorem Vitality.foldl_unlock_mono (as : List Vitality.Achievement) :
    ∀ (u : Vitality.User) (x : String), x ∈ u.progress.unlockedAchievements →
      x ∈ (as.foldl Vitality.unlockStep u).progress.unlockedAchievements := by
  induction as with
  | nil => intro u x h; exact h
  | cons a rest ih =>
    intro u x h
    exact ih _ x (Vitality.unlockStep_mono u a x h)

/-- The achievement pass never touches the streak counters. -/
theorem Vitality.foldl_unlock_streaks (as : List Vitality.Achievement) :
    ∀ u : Vitality.User,
      (as.foldl Vitality.unlockStep u).progress.streaks = u.progress.streaks := by
  induction as with
  | nil => intro u; rfl
  | cons a rest ih =>
    intro u
    rw [List.foldl_cons, ih, Vitality.unlockStep_streaks]

/-- The achievement pass never touches the completed-mission log. -/
theorem Vitality.foldl_unlock_completed (as : List Vitality.Achievement) :
    ∀ u : Vitality.User,
      (as.foldl Vitality.unlockStep u).progress.completedMissions
        = u.progress.completedMissions := by
  induction as with
  | nil => intro u; rfl
  | cons a rest ih =>
    intro u
    rw [List.foldl_cons, ih, Vitality.unlockStep_completed]

/-- When every achievement is either already unlocked or has a failing
requirement, the whole pass is a no-op. -/
theorem Vitality.checkAchievements_noop (v : Vitality.User)
    (h : ∀ a ∈ Vitality.achievementTable,
      a.id ∈ v.progress.unlockedAchievements ∨
      a.requirements.all (Vitality.requirementHolds v.progress) = false) :
    Vitality.checkAchievements v = v := by
  have key : ∀ (as : List Vitality.Achievement),
      (∀ a ∈ as, a.id ∈ v.progress.unlockedAchievements ∨
        a.requirements.all (Vitality.requirementHolds v.progress) = false) →
      as.foldl Vitality.unlockStep v = v := by
    intro as
    induction as with
    | nil => intro _; rfl
    | cons a rest ih =>
      intro hh
      have hstep : Vitality.unlockStep v a = v := by
        rcases hh a (List.mem_cons_self a rest) with hin | hreq
        · exact Vitality.unlockStep_skip v a (Vitality.contains_true hin)
        · unfold Vitality.unlockStep
          by_cases hc : v.progress.unlockedAchievements.contains a.id = true
          · rw [if_pos hc]
          · rw [if_neg hc, if_neg (by simp [hreq])]
      rw [List.foldl_cons, hstep]
      exact ih (fun x hx => hh x (List.mem_cons_of_mem a hx))
  exact key _ h

/-- Full evaluation of the achievement pass for a user whose completed-mission
log has just reached length one and who has not yet unlocked `first_mission`:
`first_mission` is pushed exactly once with its 50 XP; `week_warrior` unlocks
only when the daily streak is at least 7; the `category_progress` and
`goal_reached` kinds fall through satisfied, so `fitness_fanatic` and
`level_10` unlock whenever they are still locked. -/
theorem Vitality.checkAchievements_first (v : Vitality.User)
    (hfm : "first_mission" ∉ v.progress.unlockedAchievements)
    (hlen : v.progress.completedMissions.length = 1) :
    (Vitality.checkAchievements v).progress.unlockedAchievements.count
        "first_mission"
      = v.progress.unlockedAchievements.count "first_mission" + 1 ∧
    (Vitality.checkAchievements v).progress.xp
      = v.progress.xp + 50
        + (if "week_warrior" ∈ v.progress.unlockedAchievements
             ∨ Vitality.lookupStreak v.progress.streaks "daily" < 7
           then 0 else 200)
        + (if "fitness_fanatic" ∈ v.progress.unlockedAchievements then 0
           else 300)
        + (if "level_10" ∈ v.progress.unlockedAchievements then 0 else 500) ∧
    "first_mission"
      ∈ (Vitality.checkAchievements v).progress.unlockedAchievements ∧
    "fitness_fanatic"
      ∈ (Vitality.checkAchievements v).progress.unlockedAchievements ∧
    "level_10"
      ∈ (Vitality.checkAchievements v).progress.unlockedAchievements ∧
    ("week_warrior"
       ∈ (Vitality.checkAchievements v).progress.unlockedAchievements ∨
     Vitality.lookupStreak v.progress.streaks "daily" < 7) := by
  by_cases hww : "week_warrior" ∈ v.progress.unlockedAchievements <;>
  by_cases hwk : Vitality.lookupStreak v.progress.streaks "daily" < 7 <;>
  by_cases hff : "fitness_fanatic" ∈ v.progress.unlockedAchievements <;>
  by_cases hl10 : "level_10" ∈ v.progress.unlockedAchievements <;>
  simp [Vitality.checkAchievements, Vitality.achievementTable,
    Vitality.unlockStep, Vitality.requirementHolds, List.elem_eq_mem,
    List.count_append, hfm, hlen, hww, hwk, hff, hl10]

/-- The reward block leaves the streak counters alone. -/
theorem Vitality.applyMissionRewards_streaks (u : Vitality.User)
    (mid : String) (now : Nat) :
    (Vitality.applyMissionRewards u mid now).progress.streaks
      = u.progress.streaks := rfl

/-- The reward block leaves the unlocked-achievement list alone. -/
theorem Vitality.applyMissionRewards_unlocked (u : Vitality.User)
    (mid : String) (now : Nat) :
    (Vitality.applyMissionRewards u mid now).progress.unlockedAchievements
      = u.progress.unlockedAchievements := rfl

/-- The reward block adds exactly the flat 20 XP. -/
theorem Vitality.applyMissionRewards_xp (u : Vitality.User)
    (mid : String) (now : Nat) :
    (Vitality.applyMissionRewards u mid now).progress.xp
      = u.progress.xp + 20 := rfl

/-- The achievement pass keeps the streak counters (wrapper). -/
theorem Vitality.checkAchievements_streaks (v : Vitality.User) :
    (Vitality.checkAchievements v).progress.streaks = v.progress.streaks :=
  Vitality.foldl_unlock_streaks _ v

/-- C3: on the completion that brings the log to length one, `first_mission`
is unlocked and its 50 XP added exactly once (beyond the flat 20 XP; other
achievements may fire per their own rules); a second completion leaves its
count at one and adds only the flat 20 XP — the achievement is skipped and
its reward never added again. -/
theorem c3_first_mission_unlocked_once (u : Vitality.User) (mid mid2 : String)
    (now now2 : Nat)
    (h1 : u.progress.completedMissions = [])
    (h2 : "first_mission" ∉ u.progress.unlockedAchievements) :
    ((Vitality.completeMissionUser u mid now).progress.unlockedAchievements.count
        "first_mission" = 1) ∧
    ((Vitality.completeMissionUser u mid now).progress.xp
       = u.progress.xp + 20 + 50
         + (if "week_warrior" ∈ u.progress.unlockedAchievements
              ∨ Vitality.lookupStreak u.progress.streaks "daily" < 7
            then 0 else 200)
         + (if "fitness_fanatic" ∈ u.progress.unlockedAchievements then 0
            else 300)
         + (if "level_10" ∈ u.progress.unlockedAchievements then 0 else 500)) ∧
    ((Vitality.completeMissionUser (Vitality.completeMissionUser u mid now)
        mid2 now2).progress.unlockedAchievements.count "first_mission" = 1) ∧
    ((Vitality.completeMissionUser (Vitality.completeMissionUser u mid now)
        mid2 now2).progress.xp
       = (Vitality.completeMissionUser u mid now).progress.xp + 20) := by
  have hprog1 : (Vitality.completeMissionUser u mid now).progress
      = (Vitality.checkAchievements (Vitality.checkLevelUp
          (Vitality.applyMissionRewards u mid now))).progress := by
    simp only [Vitality.completeMissionUser]
  have hxp2 : (Vitality.checkLevelUp
      (Vitality.applyMissionRewards u mid now)).progress.xp
        = u.progress.xp + 20 := by
    rw [(Vitality.checkLevelUp_keeps _).1]
    rfl
  have hcm2 : (Vitality.checkLevelUp
      (Vitality.applyMissionRewards u mid now)).progress.completedMissions
        = [mid] := by
    rw [(Vitality.checkLevelUp_keeps _).2.1]
    show u.progress.completedMissions ++ [mid] = [mid]
    rw [h1]
    rfl
  have hst2 : (Vitality.checkLevelUp
      (Vitality.applyMissionRewards u mid now)).progress.streaks
        = u.progress.streaks := by
    rw [(Vitality.checkLevelUp_keeps _).2.2.1]
    rfl
  have hun2 : (Vitality.checkLevelUp
      (Vitality.applyMissionRewards u mid now)).progress.unlockedAchievements
        = u.progress.unlockedAchievements := by
    rw [(Vitality.checkLevelUp_keeps _).2.2.2]
    rfl
  have hfirst := Vitality.checkAchievements_first
    (Vitality.checkLevelUp (Vitality.applyMissionRewards u mid now))
    (by rw [hun2]; exact h2) (by rw [hcm2]; rfl)
  have hcount1 : (Vitality.checkAchievements (Vitality.checkLevelUp
      (Vitality.applyMissionRewards u mid now))).progress.unlockedAchievements.count
        "first_mission" = 1 := by
    rw [hfirst.1, hun2, List.count_eq_zero.mpr h2]
  refine ⟨?_, ?_, ?_, ?_⟩
  · rw [hprog1, hcount1]
  · rw [hprog1, hfirst.2.1, hxp2, hun2, hst2]
  · have hprog2 : (Vitality.completeMissionUser
        (Vitality.completeMissionUser u mid now) mid2 now2).progress
          = (Vitality.checkAchievements (Vitality.checkLevelUp
              (Vitality.applyMissionRewards
                (Vitality.completeMissionUser u mid now) mid2 now2))).progress := by
      simp only [Vitality.completeMissionUser]
    have hw2un : (Vitality.checkLevelUp (Vitality.applyMissionRewards
        (Vitality.completeMissionUser u mid now) mid2 now2)).progress.unlockedAchievements
          = (Vitality.completeMissionUser u mid now).progress.unlockedAchievements := by
      rw [(Vitality.checkLevelUp_keeps _).2.2.2]
      rfl
    have hw2st : (Vitality.checkLevelUp (Vitality.applyMissionRewards
        (Vitality.completeMissionUser u mid now) mid2 now2)).progress.streaks
          = u.progress.streaks := by
      rw [(Vitality.checkLevelUp_keeps _).2.2.1,
        Vitality.applyMissionRewards_streaks, hprog1,
        Vitality.checkAchievements_streaks, hst2]
    have hnoop : Vitality.checkAchievements (Vitality.checkLevelUp
        (Vitality.applyMissionRewards
          (Vitality.completeMissionUser u mid now) mid2 now2))
          = Vitality.checkLevelUp (Vitality.applyMissionRewards
              (Vitality.completeMissionUser u mid now) mid2 now2) := by
      apply Vitality.checkAchievements_noop
      intro a ha
      simp only [Vitality.achievementTable, List.mem_cons, List.not_mem_nil,
        or_false] at ha
      rcases ha with rfl | rfl | rfl | rfl
      · left
        show "first_mission" ∈ _
        rw [hw2un, hprog1]
        exact hfirst.2.2.1
      · rcases hfirst.2.2.2.2.2 with hin | hstreak
        · left
          show "week_warrior" ∈ _
          rw [hw2un, hprog1]
          exact hin
        · right
          rw [hst2] at hstreak
          simp [Vitality.requirementHolds, hw2st, hstreak]
      · left
        show "fitness_fanatic" ∈ _
        rw [hw2un, hprog1]
        exact hfirst.2.2.2.1
      · left
        show "level_10" ∈ _
        rw [hw2un, hprog1]
        exact hfirst.2.2.2.2.1
    rw [hprog2, hnoop, hw2un, hprog1, hcount1]
  · have hprog2 : (Vitality.completeMissionUser
        (Vitality.completeMissionUser u mid now) mid2 now2).progress
          = (Vitality.checkAchievements (Vitality.checkLevelUp
              (Vitality.applyMissionRewards
                (Vitality.completeMissionUser u mid now) mid2 now2))).progress := by
      simp only [Vitality.completeMissionUser]
    have hw2un : (Vitality.checkLevelUp (Vitality.applyMissionRewards
        (Vitality.completeMissionUser u mid now) mid2 now2)).progress.unlockedAchievements
          = (Vitality.completeMissionUser u mid now).progress.unlockedAchievements := by
      rw [(Vitality.checkLevelUp_keeps _).2.2.2]
      rfl
    have hw2st : (Vitality.checkLevelUp (Vitality.applyMissionRewards
        (Vitality.completeMissionUser u mid now) mid2 now2)).progress.streaks
          = u.progress.streaks := by
      rw [(Vitality.checkLevelUp_keeps _).2.2.1,
        Vitality.applyMissionRewards_streaks, hprog1,
        Vitality.checkAchievements_streaks, hst2]
    have hnoop : Vitality.checkAchievements (Vitality.checkLevelUp
        (Vitality.applyMissionRewards
          (Vitality.completeMissionUser u mid now) mid2 now2))
          = Vitality.checkLevelUp (Vitality.applyMissionRewards
              (Vitality.completeMissionUser u mid now) mid2 now2) := by
      apply Vitality.checkAchievements_noop
      intro a ha
      simp only [Vitality.achievementTable, List.mem_cons, List.not_mem_nil,
        or_false] at ha
      rcases ha with rfl | rfl | rfl | rfl
      · left
        show "first_mission" ∈ _
        rw [hw2un, hprog1]
        exact hfirst.2.2.1
      · rcases hfirst.2.2.2.2.2 with hin | hstreak
        · left
          show "week_warrior" ∈ _
          rw [hw2un, hprog1]
          exact hin
        · right
          rw [hst2] at hstreak
          simp [Vitality.requirementHolds, hw2st, hstreak]
      · left
        show "fitness_fanatic" ∈ _
        rw [hw2un, hprog1]
        exact hfirst.2.2.2.1
      · left
        show "level_10" ∈ _
        rw [hw2un, hprog1]
        exact hfirst.2.2.2.2.1
    rw [hprog2, hnoop, (Vitality.checkLevelUp_keeps _).1,
      Vitality.applyMissionRewards_xp]

/-- Witness for C3 at the fresh user: the first completion sets the
`first_mission` count to one, and a second completion leaves it at one and
adds only the flat 20 XP. -/
theorem c3_first_mission_unlocked_once_witness :
    (vUser.progress.completedMissions = [] ∧
     "first_mission" ∉ vUser.progress.unlockedAchievements) ∧
    (((Vitality.completeMissionUser vUser "m1" 4).progress.unlockedAchievements.count
        "first_mission" = 1) ∧
     ((Vitality.completeMissionUser vUser "m1" 4).progress.xp
        = vUser.progress.xp + 20 + 50
          + (if "week_warrior" ∈ vUser.progress.unlockedAchievements
               ∨ Vitality.lookupStreak vUser.progress.streaks "daily" < 7
             then 0 else 200)
          + (if "fitness_fanatic" ∈ vUser.progress.unlockedAchievements then 0
             else 300)
          + (if "level_10" ∈ vUser.progress.unlockedAchievements then 0
             else 500)) ∧
     ((Vitality.completeMissionUser (Vitality.completeMissionUser vUser "m1" 4)
         "m2" 5).progress.unlockedAchievements.count "first_mission" = 1) ∧
     ((Vitality.completeMissionUser (Vitality.completeMissionUser vUser "m1" 4)
         "m2" 5).progress.xp
        = (Vitality.completeMissionUser vUser "m1" 4).progress.xp + 20)) :=
  ⟨⟨rfl, by decide⟩,
   c3_first_mission_unlocked_once vUser "m1" "m2" 4 5 rfl (by decide)⟩
